import Mathlib

/-
Verification development for the Unibase AIP CLI adapter
(scripts/index.py).  The Python program is shallowly embedded:

* JSON documents are the inductive type `Json`.
* The process environment (os.environ) is an association list with
  first-match lookup; `.env` loading is a fold of setdefault steps.
* The external SDK (`AsyncAIPClient`, the "Platform Client") is an
  abstract record of methods; each method returns `Except String r`
  where an error models an exception escaping the client with the
  given message.  Likewise `json.loads` of the Python standard library
  is an abstract parameter `jloads`.
* Python exceptions inside the CLI are `PyExc`: ordinary exceptions
  carry a message; `systemExit m` models the SystemExit raised by
  `cli_err m` after printing the error object (SystemExit is not an
  `Exception` subclass, so the generic handler in run_cli does not
  catch it).
* `run_cli` takes the argument vector after the program name and
  returns the list of JSON values printed to stdout plus the exit
  code.
-/

namespace AIP

/-- JSON values as printed by the CLI (objects keep field order). -/
inductive Json where
  | null
  | bool (b : Bool)
  | num (n : Int)
  | str (s : String)
  | arr (elems : List Json)
  | obj (fields : List (String × Json))

/-! ## Environment model and .env loading (get_config, lines 60-84) -/

/-- os.environ modelled as an association list; first match wins. -/
abbrev EnvMap : Type := List (String × String)

def envGet : EnvMap → String → Option String
  | [], _ => none
  | (k, v) :: rest, key => if k = key then some v else envGet rest key

/-- os.environ.setdefault: insert only when the key is absent. -/
def envSetdefault (env : EnvMap) (key value : String) : EnvMap :=
  match envGet env key with
  | some _ => env
  | none => env ++ [(key, value)]

/-- ASCII whitespace as stripped by Python str.strip (the source only
ever strips .env lines, where ASCII whitespace is what occurs). -/
def isPyWs (c : Char) : Bool :=
  c = ' ' || c = '\t' || c = '\n' || c = '\r' || c = '\x0b' || c = '\x0c'

/-- Python str.strip(): drop leading and trailing whitespace. -/
def pyStrip (s : String) : String :=
  String.mk (((s.toList.dropWhile isPyWs).reverse.dropWhile isPyWs).reverse)

/-- line.split("=", 1): split at the first "=", or none when the line
contains no "=" (the `"=" in line` guard). -/
def splitEqOnce : List Char → Option (List Char × List Char)
  | [] => none
  | c :: cs =>
    if c = '=' then some ([], cs)
    else (splitEqOnce cs).map (fun p => (c :: p.1, p.2))

/-- One iteration of the .env loading loop in get_config: strip the
line, skip blank and comment lines and lines without "=", otherwise
setdefault the stripped key to the stripped value. -/
def procEnvLine (env : EnvMap) (rawLine : String) : EnvMap :=
  let line := pyStrip rawLine
  if line ≠ "" ∧ ¬ line.startsWith "#" then
    match splitEqOnce line.toList with
    | some (k, v) => envSetdefault env (pyStrip (String.mk k)) (pyStrip (String.mk v))
    | none => env
  else env

/-- The whole .env loading loop over the lines of the file. -/
def loadDotenv (lines : List String) (env : EnvMap) : EnvMap :=
  lines.foldl procEnvLine env

/-- The optional .env file: none when the file does not exist. -/
def applyDotenv (dotenvFile : Option (List String)) (env : EnvMap) : EnvMap :=
  match dotenvFile with
  | none => env
  | some lines => loadDotenv lines env

/-! ## Exceptions, printing helpers -/

/-- Python exceptions reaching run_cli: `exc m` is an ordinary
Exception with message m; `systemExit m` is the SystemExit raised by
cli_err m (after printing the error object), which `except Exception`
does not catch. -/
inductive PyExc where
  | exc (message : String)
  | systemExit (message : String)

/-- The error object printed by cli_err. -/
def errObj (message : String) : Json :=
  Json.obj [("error", Json.str message)]

/-- cli_err: print the error object and exit 1 (modelled as raising
SystemExit carrying the message; run_cli turns it into the printed
value and exit code). -/
def cli_err {α : Type} (message : String) : Except PyExc α :=
  Except.error (PyExc.systemExit message)

/-- Exceptions raised by the external client are ordinary Exceptions. -/
def liftExc {α : Type} : Except String α → Except PyExc α
  | Except.ok a => Except.ok a
  | Except.error m => Except.error (PyExc.exc m)

/-! ## Configuration (get_config) -/

structure Config where
  aip_endpoint : String
  user_wallet : String
  membase_account : Option String
  membase_secret_key : Option String

/-- get_config (lines 60-84): load .env with setdefault semantics,
default AIP_ENDPOINT, and fail via cli_err when USER_WALLET_ADDRESS
is absent or falsy (the empty string). -/
def get_config (dotenvFile : Option (List String)) (env0 : EnvMap) :
    Except PyExc Config :=
  let env := applyDotenv dotenvFile env0
  let aip_endpoint := (envGet env "AIP_ENDPOINT").getD "http://api.aip.unibase.com"
  match envGet env "USER_WALLET_ADDRESS" with
  | none => cli_err "Missing env: set USER_WALLET_ADDRESS"
  | some w =>
    if w = "" then cli_err "Missing env: set USER_WALLET_ADDRESS"
    else Except.ok
      { aip_endpoint := aip_endpoint
        user_wallet := w
        membase_account := envGet env "MEMBASE_ACCOUNT"
        membase_secret_key := envGet env "MEMBASE_SECRET_KEY" }

/-! ## Python int() parsing (used by the TOOLS lambdas) -/

/-- Digit run after the first digit: single underscores are allowed
between digits (Python 3 int literals), nothing else. -/
def digitsTail : List Char → Bool
  | [] => true
  | ['_'] => false
  | '_' :: c :: cs => c.isDigit && digitsTail (c :: cs)
  | c :: cs => c.isDigit && digitsTail cs

/-- A valid unsigned decimal body for int(): nonempty, starts with a
digit, underscores only between digits. -/
def validDigits : List Char → Bool
  | [] => false
  | c :: cs => c.isDigit && digitsTail cs

def digitsVal (cs : List Char) : Nat :=
  cs.foldl (fun acc c => if c = '_' then acc else acc * 10 + (c.toNat - '0'.toNat)) 0

/-- int(s) for a decimal string: optional surrounding whitespace,
optional sign, then a valid digit body; none when int() would raise
ValueError. -/
def pyIntParse (s : String) : Option Int :=
  match (pyStrip s).toList with
  | '+' :: rest => if validDigits rest then some (Int.ofNat (digitsVal rest)) else none
  | '-' :: rest => if validDigits rest then some (-(Int.ofNat (digitsVal rest))) else none
  | cs => if validDigits cs then some (Int.ofNat (digitsVal cs)) else none

/-- The ValueError message of int() (repr of the literal simplified
to single quotes). -/
def intErrMsg (s : String) : String :=
  "invalid literal for int() with base 10: \x27" ++ s ++ "\x27"

/-- int(args[i]) inside a TOOLS lambda: a ValueError is an ordinary
Exception caught by run_cli's generic handler. -/
def pyInt (s : String) : Except PyExc Int :=
  match pyIntParse s with
  | some n => Except.ok n
  | none => Except.error (PyExc.exc (intErrMsg s))

/-! ## The Platform Client (external SDK), abstract -/

/-- Result of client.run (fields the CLI reads). -/
structure RunResult where
  success : Bool
  status : String
  output : Json

/-- One event yielded by client.run_stream. -/
structure StreamEvent where
  event_type : String
  payload : Json

/-- An agent object returned by the client (fields the CLI reads;
their SDK types are unknown, so they are kept as JSON values). -/
structure AgentRecord where
  agent_id : Json
  handle : Json
  name : Json
  description : Json
  price : Json
  capabilities : Json
  skills : Json
  metadata : Json
  endpoint_url : Json
  on_chain : Json
  identity_address : Json

/-- A price object returned by the client. -/
structure PriceInfo where
  identifier : Json
  amount : Json
  currency : Json
  metadata : Json

/-- A user object returned by the client. -/
structure UserRecord where
  user_id : Json
  wallet_address : Json
  email : Json
  created_at : Json

/-- A paginated response (items / total / limit / offset). -/
structure PageResponse (α : Type) where
  items : List α
  total : Json
  limit : Json
  offset : Json

/-- The AsyncAIPClient: each method either returns a value or raises
an exception with the given message.  run_stream is the full event
stream the client would yield if fully consumed. -/
structure Client where
  run : String → Option String → String → Except String RunResult
  run_stream : String → Option String → String → List StreamEvent
  health_check : Except String Bool
  list_user_agents : String → Int → Int → Except String (PageResponse AgentRecord)
  get_agent : String → String → Except String (Option AgentRecord)
  list_user_runs : String → Int → Int → Except String (PageResponse Json)
  get_run_events : String → Except String Json
  get_run_payments : String → Except String Json
  get_agent_price : String → String → Except String PriceInfo
  list_agent_prices : Int → Int → Except String (PageResponse PriceInfo)
  register_agent : String → Json → Except String Json
  unregister_agent : String → String → Except String Json
  register_user : String → Option String → Except String Json
  list_users : Int → Int → Except String (PageResponse UserRecord)

/-! ## Substring test ("502" in error_msg) -/

def isPrefixOfL : List Char → List Char → Bool
  | [], _ => true
  | _ :: _, [] => false
  | a :: as, b :: bs => a = b && isPrefixOfL as bs

def containsSubAux (needle : List Char) : List Char → Bool
  | [] => isPrefixOfL needle []
  | c :: cs => isPrefixOfL needle (c :: cs) || containsSubAux needle cs

/-- Python `needle in haystack` on strings. -/
def strContains (haystack needle : String) : Bool :=
  containsSubAux needle.toList haystack.toList

/-! ## Tool handler functions (lines 87-368) -/

/-- call_agent (lines 87-106). -/
def call_agent (c : Client) (dotenvFile : Option (List String)) (env : EnvMap)
    (agent_handle objective : String) : Except PyExc Json := do
  let config ← get_config dotenvFile env
  let user_id := "user:" ++ config.user_wallet
  let result ← liftExc (c.run objective (some agent_handle) user_id)
  pure (Json.obj
    [("success", Json.bool result.success),
     ("status", Json.str result.status),
     ("output", result.output),
     ("agent", Json.str agent_handle),
     ("objective", Json.str objective)])

/-- The event reshaping inside the stream loop. -/
def eventJson (e : StreamEvent) : Json :=
  Json.obj [("event_type", Json.str e.event_type), ("payload", e.payload)]

/-- The streaming loop of stream_agent (lines 117-130): append each
reshaped event; break after a run_completed or run_error event. -/
def streamLoop : List StreamEvent → List Json
  | [] => []
  | e :: rest =>
    if e.event_type = "run_completed" || e.event_type = "run_error" then [eventJson e]
    else eventJson e :: streamLoop rest

/-- stream_agent (lines 109-132). -/
def stream_agent (c : Client) (dotenvFile : Option (List String)) (env : EnvMap)
    (agent_handle objective : String) : Except PyExc Json := do
  let config ← get_config dotenvFile env
  let user_id := "user:" ++ config.user_wallet
  pure (Json.arr (streamLoop (c.run_stream objective (some agent_handle) user_id)))

/-- auto_route (lines 135-153). -/
def auto_route (c : Client) (dotenvFile : Option (List String)) (env : EnvMap)
    (objective : String) : Except PyExc Json := do
  let config ← get_config dotenvFile env
  let user_id := "user:" ++ config.user_wallet
  let result ← liftExc (c.run objective none user_id)
  pure (Json.obj
    [("success", Json.bool result.success),
     ("status", Json.str result.status),
     ("output", result.output),
     ("objective", Json.str objective),
     ("routed", Json.bool true)])

/-- health_check (lines 156-166). -/
def health_check (c : Client) (dotenvFile : Option (List String)) (env : EnvMap) :
    Except PyExc Json := do
  let config ← get_config dotenvFile env
  let is_healthy ← liftExc c.health_check
  pure (Json.obj
    [("healthy", Json.bool is_healthy),
     ("endpoint", Json.str config.aip_endpoint)])

/-- The per-agent summary dict built by list_agents. -/
def agentSummary (a : AgentRecord) : Json :=
  Json.obj
    [("agent_id", a.agent_id), ("handle", a.handle), ("name", a.name),
     ("description", a.description), ("price", a.price),
     ("capabilities", a.capabilities), ("on_chain", a.on_chain),
     ("identity_address", a.identity_address)]

/-- The fallback object returned by list_agents when the endpoint is
unavailable (lines 205-211). -/
def listAgentsFallback (limit offset : Int) : Json :=
  Json.obj
    [("agents", Json.arr []),
     ("total", Json.num 0),
     ("limit", Json.num limit),
     ("offset", Json.num offset),
     ("note", Json.str "Agent discovery endpoint not available. Use call_agent with known handles like \x27weather_public\x27 or \x27calculator_private\x27.")]

/-- list_agents (lines 169-212): get_config runs before the try; an
exception from the client whose message contains "502" or "404" is
replaced by the fallback object, any other exception is re-raised. -/
def list_agents (c : Client) (dotenvFile : Option (List String)) (env : EnvMap)
    (limit offset : Int) : Except PyExc Json := do
  let config ← get_config dotenvFile env
  let user_id := "user:" ++ config.user_wallet
  match c.list_user_agents user_id limit offset with
  | Except.ok response =>
    pure (Json.obj
      [("agents", Json.arr (response.items.map agentSummary)),
       ("total", response.total),
       ("limit", response.limit),
       ("offset", response.offset)])
  | Except.error e =>
    if strContains e "502" || strContains e "404" then
      pure (listAgentsFallback limit offset)
    else Except.error (PyExc.exc e)

/-- get_agent_info (lines 215-238): cli_err when the client returns a
falsy (absent) agent. -/
def get_agent_info (c : Client) (dotenvFile : Option (List String)) (env : EnvMap)
    (agent_id : String) : Except PyExc Json := do
  let config ← get_config dotenvFile env
  let user_id := "user:" ++ config.user_wallet
  let agent? ← liftExc (c.get_agent user_id agent_id)
  match agent? with
  | none => cli_err ("Agent not found: " ++ agent_id)
  | some agent =>
    pure (Json.obj
      [("agent_id", agent.agent_id), ("handle", agent.handle),
       ("name", agent.name), ("description", agent.description),
       ("price", agent.price), ("capabilities", agent.capabilities),
       ("skills", agent.skills), ("metadata", agent.metadata),
       ("endpoint_url", agent.endpoint_url), ("on_chain", agent.on_chain),
       ("identity_address", agent.identity_address)])

/-- list_runs (lines 241-254). -/
def list_runs (c : Client) (dotenvFile : Option (List String)) (env : EnvMap)
    (limit offset : Int) : Except PyExc Json := do
  let config ← get_config dotenvFile env
  let user_id := "user:" ++ config.user_wallet
  let response ← liftExc (c.list_user_runs user_id limit offset)
  pure (Json.obj
    [("runs", Json.arr response.items),
     ("total", response.total),
     ("limit", response.limit),
     ("offset", response.offset)])

/-- get_run_details (lines 257-269). -/
def get_run_details (c : Client) (dotenvFile : Option (List String)) (env : EnvMap)
    (run_id : String) : Except PyExc Json := do
  let _config ← get_config dotenvFile env
  let events ← liftExc (c.get_run_events run_id)
  let payments ← liftExc (c.get_run_payments run_id)
  pure (Json.obj
    [("run_id", Json.str run_id),
     ("events", events),
     ("payments", payments)])

/-- get_agent_price (lines 272-285). -/
def get_agent_price (c : Client) (dotenvFile : Option (List String)) (env : EnvMap)
    (agent_id : String) : Except PyExc Json := do
  let config ← get_config dotenvFile env
  let user_id := "user:" ++ config.user_wallet
  let price_info ← liftExc (c.get_agent_price user_id agent_id)
  pure (Json.obj
    [("agent_id", price_info.identifier),
     ("amount", price_info.amount),
     ("currency", price_info.currency),
     ("metadata", price_info.metadata)])

def priceSummary (p : PriceInfo) : Json :=
  Json.obj
    [("agent_id", p.identifier), ("amount", p.amount),
     ("currency", p.currency), ("metadata", p.metadata)]

/-- list_agent_prices (lines 288-309). -/
def list_agent_prices (c : Client) (dotenvFile : Option (List String)) (env : EnvMap)
    (limit offset : Int) : Except PyExc Json := do
  let _config ← get_config dotenvFile env
  let response ← liftExc (c.list_agent_prices limit offset)
  pure (Json.obj
    [("prices", Json.arr (response.items.map priceSummary)),
     ("total", response.total),
     ("limit", response.limit),
     ("offset", response.offset)])

/-- register_agent (lines 312-324): json.loads is the abstract
parameter jloads; a decode error becomes cli_err "Invalid JSON: ...". -/
def register_agent (c : Client) (jloads : String → Except String Json)
    (dotenvFile : Option (List String)) (env : EnvMap)
    (agent_config_json : String) : Except PyExc Json := do
  let config ← get_config dotenvFile env
  let user_id := "user:" ++ config.user_wallet
  match jloads agent_config_json with
  | Except.error e => cli_err ("Invalid JSON: " ++ e)
  | Except.ok agent_config => liftExc (c.register_agent user_id agent_config)

/-- unregister_agent (lines 327-334). -/
def unregister_agent (c : Client) (dotenvFile : Option (List String)) (env : EnvMap)
    (agent_id : String) : Except PyExc Json := do
  let config ← get_config dotenvFile env
  let user_id := "user:" ++ config.user_wallet
  liftExc (c.unregister_agent user_id agent_id)

/-- register_user (lines 337-344). -/
def register_user (c : Client) (dotenvFile : Option (List String)) (env : EnvMap)
    (email : Option String) : Except PyExc Json := do
  let config ← get_config dotenvFile env
  liftExc (c.register_user config.user_wallet email)

def userSummary (u : UserRecord) : Json :=
  Json.obj
    [("user_id", u.user_id), ("wallet_address", u.wallet_address),
     ("email", u.email), ("created_at", u.created_at)]

/-- list_users (lines 347-368). -/
def list_users (c : Client) (dotenvFile : Option (List String)) (env : EnvMap)
    (limit offset : Int) : Except PyExc Json := do
  let _config ← get_config dotenvFile env
  let response ← liftExc (c.list_users limit offset)
  pure (Json.obj
    [("users", Json.arr (response.items.map userSummary)),
     ("total", response.total),
     ("limit", response.limit),
     ("offset", response.offset)])

/-! ## TOOLS dispatch table (lines 372-455) and run_cli (lines 458-478) -/

/-- One entry of the TOOLS dict: minimum argument count, usage string,
and the handler lambda over the raw argument list.  Handlers receive
the client, the json.loads oracle, the optional .env file and the
environment. -/
structure ToolInfo where
  min_args : Nat
  usage : String
  handler : Client → (String → Except String Json) → Option (List String) → EnvMap →
    List String → Except PyExc Json

/-- args[i] on a too-short list raises IndexError (never reached after
the min_args check). -/
def argAt (args : List String) (i : Nat) : Except PyExc String :=
  match args.get? i with
  | some a => Except.ok a
  | none => Except.error (PyExc.exc "list index out of range")

/-- int(args[0]) if len(args) > 0 else 100 — evaluated when the
lambda is called, before the coroutine body runs. -/
def limitArg (args : List String) : Except PyExc Int :=
  match args.get? 0 with
  | some s => pyInt s
  | none => Except.ok 100

/-- int(args[1]) if len(args) > 1 else 0. -/
def offsetArg (args : List String) : Except PyExc Int :=
  match args.get? 1 with
  | some s => pyInt s
  | none => Except.ok 0

def callAgentTool : ToolInfo :=
  { min_args := 2
    usage := "call_agent \"<agent_handle>\" \"<objective>\""
    handler := fun c _j d env args => do
      let a0 ← argAt args 0
      let a1 ← argAt args 1
      call_agent c d env a0 a1 }

def streamAgentTool : ToolInfo :=
  { min_args := 2
    usage := "stream_agent \"<agent_handle>\" \"<objective>\""
    handler := fun c _j d env args => do
      let a0 ← argAt args 0
      let a1 ← argAt args 1
      stream_agent c d env a0 a1 }

def autoRouteTool : ToolInfo :=
  { min_args := 1
    usage := "auto_route \"<objective>\""
    handler := fun c _j d env args => do
      let a0 ← argAt args 0
      auto_route c d env a0 }

def healthCheckTool : ToolInfo :=
  { min_args := 0
    usage := "health_check"
    handler := fun c _j d env _args => health_check c d env }

def listAgentsTool : ToolInfo :=
  { min_args := 0
    usage := "list_agents [limit] [offset]"
    handler := fun c _j d env args => do
      let limit ← limitArg args
      let offset ← offsetArg args
      list_agents c d env limit offset }

def getAgentInfoTool : ToolInfo :=
  { min_args := 1
    usage := "get_agent_info \"<agent_id>\""
    handler := fun c _j d env args => do
      let a0 ← argAt args 0
      get_agent_info c d env a0 }

def listRunsTool : ToolInfo :=
  { min_args := 0
    usage := "list_runs [limit] [offset]"
    handler := fun c _j d env args => do
      let limit ← limitArg args
      let offset ← offsetArg args
      list_runs c d env limit offset }

def getRunDetailsTool : ToolInfo :=
  { min_args := 1
    usage := "get_run_details \"<run_id>\""
    handler := fun c _j d env args => do
      let a0 ← argAt args 0
      get_run_details c d env a0 }

def getAgentPriceTool : ToolInfo :=
  { min_args := 1
    usage := "get_agent_price \"<agent_id>\""
    handler := fun c _j d env args => do
      let a0 ← argAt args 0
      get_agent_price c d env a0 }

def listAgentPricesTool : ToolInfo :=
  { min_args := 0
    usage := "list_agent_prices [limit] [offset]"
    handler := fun c _j d env args => do
      let limit ← limitArg args
      let offset ← offsetArg args
      list_agent_prices c d env limit offset }

def registerAgentTool : ToolInfo :=
  { min_args := 1
    usage := "register_agent \"<agent_config_json>\""
    handler := fun c j d env args => do
      let a0 ← argAt args 0
      register_agent c j d env a0 }

def unregisterAgentTool : ToolInfo :=
  { min_args := 1
    usage := "unregister_agent \"<agent_id>\""
    handler := fun c _j d env args => do
      let a0 ← argAt args 0
      unregister_agent c d env a0 }

def registerUserTool : ToolInfo :=
  { min_args := 0
    usage := "register_user [email]"
    handler := fun c _j d env args => register_user c d env (args.get? 0) }

def listUsersTool : ToolInfo :=
  { min_args := 0
    usage := "list_users [limit] [offset]"
    handler := fun c _j d env args => do
      let limit ← limitArg args
      let offset ← offsetArg args
      list_users c d env limit offset }

/-- The TOOLS dict, in insertion order (Python dicts preserve it). -/
def TOOLS : List (String × ToolInfo) :=
  [("call_agent", callAgentTool),
   ("stream_agent", streamAgentTool),
   ("auto_route", autoRouteTool),
   ("health_check", healthCheckTool),
   ("list_agents", listAgentsTool),
   ("get_agent_info", getAgentInfoTool),
   ("list_runs", listRunsTool),
   ("get_run_details", getRunDetailsTool),
   ("get_agent_price", getAgentPriceTool),
   ("list_agent_prices", listAgentPricesTool),
   ("register_agent", registerAgentTool),
   ("unregister_agent", unregisterAgentTool),
   ("register_user", registerUserTool),
   ("list_users", listUsersTool)]

/-- " | ".join(t["usage"] for t in TOOLS.values()). -/
def usageJoin : String :=
  String.intercalate " | " (TOOLS.map (fun t => t.2.usage))

/-- TOOLS lookup (`tool in TOOLS` / `TOOLS[tool]`). -/
def lookupTool (name : String) : Option ToolInfo :=
  (TOOLS.find? (fun t => t.1 = name)).map (fun t => t.2)

/-- What one CLI invocation produces: the JSON values printed to
stdout, in order, and the process exit code. -/
structure CliResult where
  printed : List Json
  exitCode : Nat

/-- run_cli (lines 458-478), applied to sys.argv[1:]: dispatch on the
tool name, check min_args, run the handler inside try/except
Exception.  A SystemExit from cli_err passes through the handler
uncaught with its already-printed error object; an ordinary Exception
is caught and fed to cli_err. -/
def run_cli (c : Client) (jloads : String → Except String Json)
    (dotenvFile : Option (List String)) (env : EnvMap)
    (argv : List String) : CliResult :=
  match argv with
  | [] => { printed := [errObj ("Usage: " ++ usageJoin)], exitCode := 1 }
  | tool :: args =>
    match lookupTool tool with
    | none =>
      { printed := [errObj ("Unknown tool: " ++ tool ++ ". Usage: " ++ usageJoin)]
        exitCode := 1 }
    | some info =>
      if args.length < info.min_args then
        { printed := [errObj ("Usage: " ++ info.usage)], exitCode := 1 }
      else
        match info.handler c jloads dotenvFile env args with
        | Except.ok v => { printed := [v], exitCode := 0 }
        | Except.error (PyExc.exc m) => { printed := [errObj m], exitCode := 1 }
        | Except.error (PyExc.systemExit m) => { printed := [errObj m], exitCode := 1 }

/-! ## Concrete data used to exercise the theorems -/

/-- The error message of get_config when USER_WALLET_ADDRESS is
absent or empty. -/
def missingEnvMsg : String := "Missing env: set USER_WALLET_ADDRESS"

/-- A concrete environment with the wallet set. -/
def demoEnv : EnvMap := [("USER_WALLET_ADDRESS", "0xabc")]

/-- The configuration get_config produces from demoEnv. -/
def demoConfig : Config :=
  { aip_endpoint := "http://api.aip.unibase.com"
    user_wallet := "0xabc"
    membase_account := none
    membase_secret_key := none }

/-- A json.loads oracle that rejects every payload. -/
def demoLoads : String → Except String Json :=
  fun _ => Except.error "Expecting value: line 1 column 1 (char 0)"

def demoRunResult : RunResult :=
  { success := true, status := "completed", output := Json.str "ok" }

def demoPage {α : Type} : PageResponse α :=
  { items := [], total := Json.num 0, limit := Json.num 100, offset := Json.num 0 }

/-- A concrete client: run succeeds, the stream ends in run_completed
with a trailing event after the sentinel, the agent-listing endpoint
answers 502, get_agent finds nothing. -/
def demoClient : Client :=
  { run := fun _ _ _ => Except.ok demoRunResult
    run_stream := fun _ _ _ =>
      [{ event_type := "run_started", payload := Json.null },
       { event_type := "run_completed", payload := Json.null },
       { event_type := "after_the_end", payload := Json.null }]
    health_check := Except.ok true
    list_user_agents := fun _ _ _ => Except.error "HTTP 502 Bad Gateway"
    get_agent := fun _ _ => Except.ok none
    list_user_runs := fun _ _ _ => Except.ok demoPage
    get_run_events := fun _ => Except.ok Json.null
    get_run_payments := fun _ => Except.ok Json.null
    get_agent_price := fun _ _ =>
      Except.ok { identifier := Json.null, amount := Json.null,
                  currency := Json.null, metadata := Json.null }
    list_agent_prices := fun _ _ => Except.ok demoPage
    register_agent := fun _ _ => Except.ok Json.null
    unregister_agent := fun _ _ => Except.ok Json.null
    register_user := fun _ _ => Except.ok Json.null
    list_users := fun _ _ => Except.ok demoPage }

/-- A client whose agent listing fails with a message mentioning
neither 502 nor 404. -/
def boomClient : Client :=
  { demoClient with list_user_agents := fun _ _ _ => Except.error "connection refused" }

/-- The CLI outcome of a cli_err with the missing-env message. -/
abbrev missingEnvResult : CliResult :=
  { printed := [errObj missingEnvMsg], exitCode := 1 }

/-- The CLI outcome of an uncaught int() ValueError on literal s. -/
abbrev badIntResult (s : String) : CliResult :=
  { printed := [errObj (intErrMsg s)], exitCode := 1 }

/-- The loop-terminating test of stream_agent: run_completed or
run_error. -/
def isSentinelEv (e : StreamEvent) : Bool :=
  e.event_type = "run_completed" || e.event_type = "run_error"

/-! ## Helper lemmas -/

theorem exceptBindError {α β : Type} (pe : PyExc) (f : α → Except PyExc β) :
    ((Except.error pe : Except PyExc α) >>= f) = Except.error pe := rfl

theorem exceptBindOk {α β : Type} (a : α) (f : α → Except PyExc β) :
    ((Except.ok a : Except PyExc α) >>= f) = f a := rfl

theorem exceptPureOk {α : Type} (a : α) :
    (pure a : Except PyExc α) = Except.ok a := rfl

theorem streamLoop_cons (e : StreamEvent) (rest : List StreamEvent) :
    streamLoop (e :: rest) =
      if isSentinelEv e then [eventJson e] else eventJson e :: streamLoop rest := rfl

theorem envGet_append_left (env tail : EnvMap) (k v : String)
    (h : envGet env k = some v) : envGet (env ++ tail) k = some v := by
  induction env with
  | nil => simp [envGet] at h
  | cons hd rest ih =>
    obtain ⟨k0, v0⟩ := hd
    by_cases hk : k0 = k
    · simpa [envGet, hk] using h
    · simp only [envGet, hk, if_false, List.cons_append] at h ⊢
      exact ih h

theorem envSetdefault_keeps (env : EnvMap) (key value k v : String)
    (h : envGet env k = some v) :
    envGet (envSetdefault env key value) k = some v := by
  unfold envSetdefault
  rcases hkey : envGet env key with _ | w
  · exact envGet_append_left env [(key, value)] k v h
  · exact h

theorem procEnvLine_keeps (env : EnvMap) (line k v : String)
    (h : envGet env k = some v) :
    envGet (procEnvLine env line) k = some v := by
  simp only [procEnvLine]
  split
  · split
    · exact envSetdefault_keeps _ _ _ _ _ h
    · exact h
  · exact h

theorem loadDotenv_keeps (lines : List String) (env : EnvMap) (k v : String)
    (h : envGet env k = some v) :
    envGet (loadDotenv lines env) k = some v := by
  induction lines generalizing env with
  | nil => exact h
  | cons l rest ih =>
    simp only [loadDotenv, List.foldl] at *
    exact ih _ (procEnvLine_keeps _ _ _ _ h)

theorem splitEqOnce_none (cs : List Char) (h : '=' ∉ cs) :
    splitEqOnce cs = none := by
  induction cs with
  | nil => rfl
  | cons c rest ih =>
    simp only [List.mem_cons, not_or] at h
    obtain ⟨h1, h2⟩ := h
    have hc : ¬ c = '=' := fun e => h1 e.symm
    simp [splitEqOnce, hc, ih h2]

theorem get_config_missing (d : Option (List String)) (env : EnvMap)
    (h : envGet (applyDotenv d env) "USER_WALLET_ADDRESS" = none ∨
         envGet (applyDotenv d env) "USER_WALLET_ADDRESS" = some "") :
    get_config d env = Except.error (PyExc.systemExit missingEnvMsg) := by
  rcases h with h | h <;> simp [get_config, h, cli_err, missingEnvMsg]

/-- Every tool body begins with get_config, so a configuration error
short-circuits every handler before any client method is used. -/
theorem handlers_cfg_error (c : Client) (j : String → Except String Json)
    (d : Option (List String)) (env : EnvMap) (pe : PyExc)
    (hcfg : get_config d env = Except.error pe)
    (a o aid rid p : String) (em : Option String) (limit offset : Int) :
    call_agent c d env a o = Except.error pe ∧
    stream_agent c d env a o = Except.error pe ∧
    auto_route c d env o = Except.error pe ∧
    health_check c d env = Except.error pe ∧
    list_agents c d env limit offset = Except.error pe ∧
    get_agent_info c d env aid = Except.error pe ∧
    list_runs c d env limit offset = Except.error pe ∧
    get_run_details c d env rid = Except.error pe ∧
    get_agent_price c d env aid = Except.error pe ∧
    list_agent_prices c d env limit offset = Except.error pe ∧
    register_agent c j d env p = Except.error pe ∧
    unregister_agent c d env aid = Except.error pe ∧
    register_user c d env em = Except.error pe ∧
    list_users c d env limit offset = Except.error pe := by
  refine ⟨?_, ?_, ?_, ?_, ?_, ?_, ?_, ?_, ?_, ?_, ?_, ?_, ?_, ?_⟩ <;>
    simp [call_agent, stream_agent, auto_route, health_check, list_agents,
          get_agent_info, list_runs, get_run_details, get_agent_price,
          list_agent_prices, register_agent, unregister_agent, register_user,
          list_users, hcfg, exceptBindError]

theorem run_cli_handler_ok (c : Client) (j : String → Except String Json)
    (d : Option (List String)) (env : EnvMap) (tool : String) (info : ToolInfo)
    (args : List String) (v : Json)
    (hl : lookupTool tool = some info)
    (hlen : ¬ args.length < info.min_args)
    (hh : info.handler c j d env args = Except.ok v) :
    run_cli c j d env (tool :: args) = { printed := [v], exitCode := 0 } := by
  simp [run_cli, hl, hlen, hh]

theorem run_cli_handler_exc (c : Client) (j : String → Except String Json)
    (d : Option (List String)) (env : EnvMap) (tool : String) (info : ToolInfo)
    (args : List String) (m : String)
    (hl : lookupTool tool = some info)
    (hlen : ¬ args.length < info.min_args)
    (hh : info.handler c j d env args = Except.error (PyExc.exc m)) :
    run_cli c j d env (tool :: args) = { printed := [errObj m], exitCode := 1 } := by
  simp [run_cli, hl, hlen, hh]

theorem run_cli_handler_exit (c : Client) (j : String → Except String Json)
    (d : Option (List String)) (env : EnvMap) (tool : String) (info : ToolInfo)
    (args : List String) (m : String)
    (hl : lookupTool tool = some info)
    (hlen : ¬ args.length < info.min_args)
    (hh : info.handler c j d env args = Except.error (PyExc.systemExit m)) :
    run_cli c j d env (tool :: args) = { printed := [errObj m], exitCode := 1 } := by
  simp [run_cli, hl, hlen, hh]

/-! ## Claim theorems -/

/-- C1: every CLI invocation prints exactly one JSON value, and every
invocation with a nonzero exit prints exactly one error object of the
form errObj m and exits with status 1 — over all clients, json.loads
oracles, .env files, environments and argument vectors. -/
theorem single_json_output_contract (c : Client) (j : String → Except String Json)
    (d : Option (List String)) (env : EnvMap) (argv : List String) :
    (run_cli c j d env argv).printed.length = 1 ∧
    ((run_cli c j d env argv).exitCode ≠ 0 →
      ∃ m, (run_cli c j d env argv).printed = [errObj m] ∧
        (run_cli c j d env argv).exitCode = 1) := by
  rcases argv with _ | ⟨tool, args⟩
  · exact ⟨rfl, fun _ => ⟨_, rfl, rfl⟩⟩
  · simp only [run_cli]
    rcases hl : lookupTool tool with _ | info
    · exact ⟨rfl, fun _ => ⟨_, rfl, rfl⟩⟩
    · dsimp only
      by_cases hlen : args.length < info.min_args
      · rw [if_pos hlen]
        exact ⟨rfl, fun _ => ⟨_, rfl, rfl⟩⟩
      · rw [if_neg hlen]
        rcases hh : info.handler c j d env args with (m | m) | v
        · exact ⟨rfl, fun _ => ⟨_, rfl, rfl⟩⟩
        · exact ⟨rfl, fun _ => ⟨_, rfl, rfl⟩⟩
        · exact ⟨rfl, fun h0 => absurd rfl h0⟩

theorem single_json_output_contract_witness :
    (run_cli demoClient demoLoads none [] ["no_such_tool"]).printed.length = 1 ∧
    (∃ m, (run_cli demoClient demoLoads none [] ["no_such_tool"]).printed = [errObj m] ∧
      (run_cli demoClient demoLoads none [] ["no_such_tool"]).exitCode = 1) :=
  ⟨(single_json_output_contract demoClient demoLoads none [] ["no_such_tool"]).1,
   (single_json_output_contract demoClient demoLoads none [] ["no_such_tool"]).2
     (by decide)⟩

/-- C2: (a) any known tool given fewer arguments than its min_args
produces the usage error object and exit 1, identically for every
client, json.loads oracle and environment (the handler never runs);
(b) register_agent with a payload json.loads rejects produces an
error object whose message begins with "Invalid JSON:" and exit 1,
identically for every client (no client is constructed). -/
theorem usage_and_invalid_json_errors :
    (∀ (c : Client) (j : String → Except String Json) (d : Option (List String))
       (env : EnvMap) (tool : String) (info : ToolInfo) (args : List String),
       lookupTool tool = some info → args.length < info.min_args →
       run_cli c j d env (tool :: args) =
         { printed := [errObj ("Usage: " ++ info.usage)], exitCode := 1 }) ∧
    (∀ (c : Client) (j : String → Except String Json) (d : Option (List String))
       (env : EnvMap) (cfg : Config) (payload e : String),
       get_config d env = Except.ok cfg → j payload = Except.error e →
       run_cli c j d env ["register_agent", payload] =
         { printed := [errObj ("Invalid JSON: " ++ e)], exitCode := 1 }) := by
  constructor
  · intro c j d env tool info args hl hlen
    simp only [run_cli, hl]
    rw [if_pos hlen]
  · intro c j d env cfg payload e hcfg hj
    refine run_cli_handler_exit c j d env _ registerAgentTool [payload] _ rfl
      (by simp [registerAgentTool]) ?_
    simp [registerAgentTool, argAt, register_agent, hcfg, hj, cli_err,
      exceptBindOk]

theorem usage_and_invalid_json_errors_witness :
    lookupTool "call_agent" = some callAgentTool ∧
    ([] : List String).length < callAgentTool.min_args ∧
    run_cli demoClient demoLoads none demoEnv ["call_agent"] =
      { printed := [errObj ("Usage: " ++ callAgentTool.usage)], exitCode := 1 } ∧
    get_config none demoEnv = Except.ok demoConfig ∧
    demoLoads "not json" = Except.error "Expecting value: line 1 column 1 (char 0)" ∧
    run_cli demoClient demoLoads none demoEnv ["register_agent", "not json"] =
      { printed :=
          [errObj "Invalid JSON: Expecting value: line 1 column 1 (char 0)"]
        exitCode := 1 } :=
  ⟨rfl, by decide,
   usage_and_invalid_json_errors.1 demoClient demoLoads none demoEnv
     "call_agent" callAgentTool [] rfl (by decide),
   rfl, rfl,
   usage_and_invalid_json_errors.2 demoClient demoLoads none demoEnv
     demoConfig "not json" "Expecting value: line 1 column 1 (char 0)" rfl rfl⟩

/-- Shared: a get_config failure with the missing-env message makes
every subcommand invocation print that error object and exit 1. -/
theorem run_cli_cfg_missing (c : Client) (j : String → Except String Json)
    (d : Option (List String)) (env : EnvMap)
    (hcfg : get_config d env = Except.error (PyExc.systemExit missingEnvMsg))
    (a o aid rid p : String) :
    run_cli c j d env ["call_agent", a, o] = missingEnvResult ∧
    run_cli c j d env ["stream_agent", a, o] = missingEnvResult ∧
    run_cli c j d env ["auto_route", o] = missingEnvResult ∧
    run_cli c j d env ["health_check"] = missingEnvResult ∧
    run_cli c j d env ["list_agents"] = missingEnvResult ∧
    run_cli c j d env ["get_agent_info", aid] = missingEnvResult ∧
    run_cli c j d env ["list_runs"] = missingEnvResult ∧
    run_cli c j d env ["get_run_details", rid] = missingEnvResult ∧
    run_cli c j d env ["get_agent_price", aid] = missingEnvResult ∧
    run_cli c j d env ["list_agent_prices"] = missingEnvResult ∧
    run_cli c j d env ["register_agent", p] = missingEnvResult ∧
    run_cli c j d env ["unregister_agent", aid] = missingEnvResult ∧
    run_cli c j d env ["register_user"] = missingEnvResult ∧
    run_cli c j d env ["list_users"] = missingEnvResult := by
  obtain ⟨h1, h2, h3, h4, h5, h6, h7, h8, h9, h10, h11, h12, h13, h14⟩ :=
    handlers_cfg_error c j d env _ hcfg a o aid rid p none 100 0
  refine ⟨?_, ?_, ?_, ?_, ?_, ?_, ?_, ?_, ?_, ?_, ?_, ?_, ?_, ?_⟩
  · exact run_cli_handler_exit _ _ _ _ _ _ _ _ rfl (by simp [callAgentTool])
      (by simp [callAgentTool, argAt, List.get?, h1, exceptBindOk])
  · exact run_cli_handler_exit _ _ _ _ _ _ _ _ rfl (by simp [streamAgentTool])
      (by simp [streamAgentTool, argAt, List.get?, h2, exceptBindOk])
  · exact run_cli_handler_exit _ _ _ _ _ _ _ _ rfl (by simp [autoRouteTool])
      (by simp [autoRouteTool, argAt, List.get?, h3, exceptBindOk])
  · exact run_cli_handler_exit _ _ _ _ _ _ _ _ rfl (by simp [healthCheckTool])
      (by simp [healthCheckTool, h4])
  · exact run_cli_handler_exit _ _ _ _ _ _ _ _ rfl (by simp [listAgentsTool])
      (by simp [listAgentsTool, limitArg, offsetArg, List.get?, h5, exceptBindOk])
  · exact run_cli_handler_exit _ _ _ _ _ _ _ _ rfl (by simp [getAgentInfoTool])
      (by simp [getAgentInfoTool, argAt, List.get?, h6, exceptBindOk])
  · exact run_cli_handler_exit _ _ _ _ _ _ _ _ rfl (by simp [listRunsTool])
      (by simp [listRunsTool, limitArg, offsetArg, List.get?, h7, exceptBindOk])
  · exact run_cli_handler_exit _ _ _ _ _ _ _ _ rfl (by simp [getRunDetailsTool])
      (by simp [getRunDetailsTool, argAt, List.get?, h8, exceptBindOk])
  · exact run_cli_handler_exit _ _ _ _ _ _ _ _ rfl (by simp [getAgentPriceTool])
      (by simp [getAgentPriceTool, argAt, List.get?, h9, exceptBindOk])
  · exact run_cli_handler_exit _ _ _ _ _ _ _ _ rfl (by simp [listAgentPricesTool])
      (by simp [listAgentPricesTool, limitArg, offsetArg, List.get?, h10,
        exceptBindOk])
  · exact run_cli_handler_exit _ _ _ _ _ _ _ _ rfl (by simp [registerAgentTool])
      (by simp [registerAgentTool, argAt, List.get?, h11, exceptBindOk])
  · exact run_cli_handler_exit _ _ _ _ _ _ _ _ rfl (by simp [unregisterAgentTool])
      (by simp [unregisterAgentTool, argAt, List.get?, h12, exceptBindOk])
  · exact run_cli_handler_exit _ _ _ _ _ _ _ _ rfl (by simp [registerUserTool])
      (by simp [registerUserTool, List.get?, h13])
  · exact run_cli_handler_exit _ _ _ _ _ _ _ _ rfl (by simp [listUsersTool])
      (by simp [listUsersTool, limitArg, offsetArg, List.get?, h14, exceptBindOk])

/-- C3: when USER_WALLET_ADDRESS is unset after the optional .env
loading, every subcommand prints the error object naming the missing
variable and exits 1, identically for every client and json.loads
oracle (so before any Platform Client is used). -/
theorem missing_wallet_env_fatal (c : Client) (j : String → Except String Json)
    (d : Option (List String)) (env : EnvMap)
    (h : envGet (applyDotenv d env) "USER_WALLET_ADDRESS" = none)
    (a o aid rid p : String) :
    run_cli c j d env ["call_agent", a, o] = missingEnvResult ∧
    run_cli c j d env ["stream_agent", a, o] = missingEnvResult ∧
    run_cli c j d env ["auto_route", o] = missingEnvResult ∧
    run_cli c j d env ["health_check"] = missingEnvResult ∧
    run_cli c j d env ["list_agents"] = missingEnvResult ∧
    run_cli c j d env ["get_agent_info", aid] = missingEnvResult ∧
    run_cli c j d env ["list_runs"] = missingEnvResult ∧
    run_cli c j d env ["get_run_details", rid] = missingEnvResult ∧
    run_cli c j d env ["get_agent_price", aid] = missingEnvResult ∧
    run_cli c j d env ["list_agent_prices"] = missingEnvResult ∧
    run_cli c j d env ["register_agent", p] = missingEnvResult ∧
    run_cli c j d env ["unregister_agent", aid] = missingEnvResult ∧
    run_cli c j d env ["register_user"] = missingEnvResult ∧
    run_cli c j d env ["list_users"] = missingEnvResult :=
  run_cli_cfg_missing c j d env (get_config_missing d env (Or.inl h)) a o aid rid p

theorem missing_wallet_env_fatal_witness :
    envGet (applyDotenv none ([] : EnvMap)) "USER_WALLET_ADDRESS" = none ∧
    run_cli demoClient demoLoads none [] ["health_check"] = missingEnvResult :=
  ⟨rfl,
   (missing_wallet_env_fatal demoClient demoLoads none [] rfl
     "a" "o" "id" "rid" "p").2.2.2.1⟩

/-- C8: USER_WALLET_ADDRESS set to the empty string is treated by
every subcommand exactly like an absent variable: the missing-env
error object is printed and the exit status is 1, identically for
every client (no network interaction). -/
theorem empty_wallet_env_fatal (c : Client) (j : String → Except String Json)
    (d : Option (List String)) (env : EnvMap)
    (h : envGet (applyDotenv d env) "USER_WALLET_ADDRESS" = some "")
    (a o aid rid p : String) :
    run_cli c j d env ["call_agent", a, o] = missingEnvResult ∧
    run_cli c j d env ["stream_agent", a, o] = missingEnvResult ∧
    run_cli c j d env ["auto_route", o] = missingEnvResult ∧
    run_cli c j d env ["health_check"] = missingEnvResult ∧
    run_cli c j d env ["list_agents"] = missingEnvResult ∧
    run_cli c j d env ["get_agent_info", aid] = missingEnvResult ∧
    run_cli c j d env ["list_runs"] = missingEnvResult ∧
    run_cli c j d env ["get_run_details", rid] = missingEnvResult ∧
    run_cli c j d env ["get_agent_price", aid] = missingEnvResult ∧
    run_cli c j d env ["list_agent_prices"] = missingEnvResult ∧
    run_cli c j d env ["register_agent", p] = missingEnvResult ∧
    run_cli c j d env ["unregister_agent", aid] = missingEnvResult ∧
    run_cli c j d env ["register_user"] = missingEnvResult ∧
    run_cli c j d env ["list_users"] = missingEnvResult :=
  run_cli_cfg_missing c j d env (get_config_missing d env (Or.inr h)) a o aid rid p

theorem empty_wallet_env_fatal_witness :
    envGet (applyDotenv none [("USER_WALLET_ADDRESS", "")])
      "USER_WALLET_ADDRESS" = some "" ∧
    run_cli demoClient demoLoads none [("USER_WALLET_ADDRESS", "")]
      ["call_agent", "handle", "obj"] = missingEnvResult :=
  ⟨rfl,
   (empty_wallet_env_fatal demoClient demoLoads none [("USER_WALLET_ADDRESS", "")]
     rfl "handle" "obj" "id" "rid" "p").1⟩

/-- C4: .env loading only populates unset variables — every variable
that already has a value keeps it across the load — and a line whose
stripped form is empty, starts with a hash, or contains no equals
sign leaves the environment unchanged. -/
theorem dotenv_only_sets_unset :
    (∀ (lines : List String) (env : EnvMap) (k v : String),
       envGet env k = some v → envGet (loadDotenv lines env) k = some v) ∧
    (∀ (env : EnvMap) (line : String),
       pyStrip line = "" ∨ (pyStrip line).startsWith "#" ∨
         '=' ∉ (pyStrip line).toList →
       procEnvLine env line = env) := by
  constructor
  · exact loadDotenv_keeps
  · intro env line h
    simp only [procEnvLine]
    rcases h with h | h | h
    · simp [h]
    · simp [h]
    · have hs : splitEqOnce (pyStrip line).data = none := splitEqOnce_none _ h
      split
      · simp [hs]
      · rfl

theorem dotenv_only_sets_unset_witness :
    envGet demoEnv "USER_WALLET_ADDRESS" = some "0xabc" ∧
    envGet
      (loadDotenv
        ["# comment", "   ", "no equals here", "USER_WALLET_ADDRESS=0xother",
         "AIP_ENDPOINT=http://elsewhere"] demoEnv)
      "USER_WALLET_ADDRESS" = some "0xabc" ∧
    procEnvLine demoEnv "# comment" = demoEnv :=
  ⟨rfl,
   dotenv_only_sets_unset.1
     ["# comment", "   ", "no equals here", "USER_WALLET_ADDRESS=0xother",
      "AIP_ENDPOINT=http://elsewhere"] demoEnv "USER_WALLET_ADDRESS" "0xabc" rfl,
   dotenv_only_sets_unset.2 demoEnv "# comment" (Or.inr (Or.inr (by decide)))⟩

/-- C5: when the client's agent listing raises and the message
contains "502" or "404", list_agents succeeds with the empty fallback
object carrying the given limit and offset and a note, and the
invocation exits 0; any other client exception propagates and
surfaces as a JSON error object with exit 1. -/
theorem list_agents_endpoint_fallback (c : Client) (j : String → Except String Json)
    (d : Option (List String)) (env : EnvMap) (cfg : Config)
    (limit offset : Int) (e : String)
    (hcfg : get_config d env = Except.ok cfg)
    (herr : c.list_user_agents ("user:" ++ cfg.user_wallet) limit offset =
      Except.error e) :
    ((strContains e "502" || strContains e "404") = true →
      list_agents c d env limit offset =
        Except.ok (listAgentsFallback limit offset)) ∧
    ((strContains e "502" || strContains e "404") = false →
      list_agents c d env limit offset = Except.error (PyExc.exc e)) ∧
    (∀ s1 s2 : String, pyInt s1 = Except.ok limit → pyInt s2 = Except.ok offset →
      ((strContains e "502" || strContains e "404") = true →
        run_cli c j d env ["list_agents", s1, s2] =
          { printed := [listAgentsFallback limit offset], exitCode := 0 }) ∧
      ((strContains e "502" || strContains e "404") = false →
        run_cli c j d env ["list_agents", s1, s2] =
          { printed := [errObj e], exitCode := 1 })) := by
  have hfall : (strContains e "502" || strContains e "404") = true →
      list_agents c d env limit offset =
        Except.ok (listAgentsFallback limit offset) := by
    intro hc
    rw [Bool.or_eq_true] at hc
    simp [list_agents, hcfg, exceptBindOk, exceptPureOk, herr, hc]
  have hraise : (strContains e "502" || strContains e "404") = false →
      list_agents c d env limit offset = Except.error (PyExc.exc e) := by
    intro hc
    rw [Bool.or_eq_false_iff] at hc
    simp [list_agents, hcfg, exceptBindOk, exceptPureOk, herr, hc.1, hc.2]
  refine ⟨hfall, hraise, ?_⟩
  intro s1 s2 h1 h2
  constructor
  · intro hc
    exact run_cli_handler_ok _ _ _ _ _ _ _ _ rfl (by simp [listAgentsTool])
      (by simp [listAgentsTool, limitArg, offsetArg, List.get?, h1, h2,
        exceptBindOk, hfall hc])
  · intro hc
    exact run_cli_handler_exc _ _ _ _ _ _ _ _ rfl (by simp [listAgentsTool])
      (by simp [listAgentsTool, limitArg, offsetArg, List.get?, h1, h2,
        exceptBindOk, hraise hc])

theorem list_agents_endpoint_fallback_witness :
    get_config none demoEnv = Except.ok demoConfig ∧
    demoClient.list_user_agents "user:0xabc" 100 0 =
      Except.error "HTTP 502 Bad Gateway" ∧
    run_cli demoClient demoLoads none demoEnv ["list_agents", "100", "0"] =
      { printed := [listAgentsFallback 100 0], exitCode := 0 } ∧
    boomClient.list_user_agents "user:0xabc" 100 0 =
      Except.error "connection refused" ∧
    run_cli boomClient demoLoads none demoEnv ["list_agents", "100", "0"] =
      { printed := [errObj "connection refused"], exitCode := 1 } :=
  ⟨rfl, rfl,
   ((list_agents_endpoint_fallback demoClient demoLoads none demoEnv demoConfig
       100 0 "HTTP 502 Bad Gateway" rfl rfl).2.2 "100" "0" rfl rfl).1 rfl,
   rfl,
   ((list_agents_endpoint_fallback boomClient demoLoads none demoEnv demoConfig
       100 0 "connection refused" rfl rfl).2.2 "100" "0" rfl rfl).2 rfl⟩

/-- C6: the stream loop's result is exactly the reshaped prefix of
the client's event stream up to and including the first run_completed
or run_error event, independent of everything after that event; with
no such event the result is the whole reshaped stream; and
stream_agent returns exactly the loop's result over the client's
stream. -/
theorem stream_loop_sentinel :
    (∀ (p : List StreamEvent) (e : StreamEvent) (rest : List StreamEvent),
       (∀ x ∈ p, isSentinelEv x = false) → isSentinelEv e = true →
       streamLoop (p ++ e :: rest) = (p ++ [e]).map eventJson) ∧
    (∀ s : List StreamEvent,
       (∀ x ∈ s, isSentinelEv x = false) → streamLoop s = s.map eventJson) ∧
    (∀ (c : Client) (d : Option (List String)) (env : EnvMap) (cfg : Config)
       (a o : String),
       get_config d env = Except.ok cfg →
       stream_agent c d env a o =
         Except.ok (Json.arr
           (streamLoop (c.run_stream o (some a) ("user:" ++ cfg.user_wallet))))) := by
  refine ⟨?_, ?_, ?_⟩
  · intro p e rest hp he
    induction p with
    | nil => simp [streamLoop_cons, he]
    | cons x p2 ih =>
      have hx := hp x (List.mem_cons_self x p2)
      have hp2 : ∀ y ∈ p2, isSentinelEv y = false :=
        fun y hy => hp y (List.mem_cons_of_mem x hy)
      simp [streamLoop_cons, hx, ih hp2]
  · intro s hs
    induction s with
    | nil => rfl
    | cons x s2 ih =>
      have hx := hs x (List.mem_cons_self x s2)
      have hs2 : ∀ y ∈ s2, isSentinelEv y = false :=
        fun y hy => hs y (List.mem_cons_of_mem x hy)
      simp [streamLoop_cons, hx, ih hs2]
  · intro c d env cfg a o hcfg
    simp [stream_agent, hcfg, exceptBindOk, exceptPureOk]

theorem stream_loop_sentinel_witness :
    streamLoop
      [{ event_type := "run_started", payload := Json.null },
       { event_type := "run_completed", payload := Json.null },
       { event_type := "after_the_end", payload := Json.null }] =
      [eventJson { event_type := "run_started", payload := Json.null },
       eventJson { event_type := "run_completed", payload := Json.null }] ∧
    stream_agent demoClient none demoEnv "h" "obj" =
      Except.ok (Json.arr
        (streamLoop (demoClient.run_stream "obj" (some "h") "user:0xabc"))) :=
  ⟨stream_loop_sentinel.1
     [{ event_type := "run_started", payload := Json.null }]
     { event_type := "run_completed", payload := Json.null }
     [{ event_type := "after_the_end", payload := Json.null }]
     (by decide) (by decide),
   stream_loop_sentinel.2.2 demoClient none demoEnv demoConfig "h" "obj" rfl⟩

/-- C7: with a valid configuration and a successful client run,
call_agent prints exactly the five fields success, status, output,
agent, objective — agent and objective being the two positional CLI
arguments, the rest taken from the client result — and exits 0. -/
theorem call_agent_output_fields (c : Client) (j : String → Except String Json)
    (d : Option (List String)) (env : EnvMap) (cfg : Config)
    (handle objective : String) (r : RunResult)
    (hcfg : get_config d env = Except.ok cfg)
    (hrun : c.run objective (some handle) ("user:" ++ cfg.user_wallet) =
      Except.ok r) :
    run_cli c j d env ["call_agent", handle, objective] =
      { printed := [Json.obj
          [("success", Json.bool r.success),
           ("status", Json.str r.status),
           ("output", r.output),
           ("agent", Json.str handle),
           ("objective", Json.str objective)]]
        exitCode := 0 } := by
  refine run_cli_handler_ok _ _ _ _ _ _ _ _ rfl (by simp [callAgentTool]) ?_
  simp [callAgentTool, argAt, List.get?, call_agent, hcfg, hrun, liftExc,
    exceptBindOk, exceptPureOk]

theorem call_agent_output_fields_witness :
    get_config none demoEnv = Except.ok demoConfig ∧
    demoClient.run "obj" (some "handle") "user:0xabc" = Except.ok demoRunResult ∧
    run_cli demoClient demoLoads none demoEnv ["call_agent", "handle", "obj"] =
      { printed := [Json.obj
          [("success", Json.bool true),
           ("status", Json.str "completed"),
           ("output", Json.str "ok"),
           ("agent", Json.str "handle"),
           ("objective", Json.str "obj")]]
        exitCode := 0 } :=
  ⟨rfl, rfl,
   call_agent_output_fields demoClient demoLoads none demoEnv demoConfig
     "handle" "obj" demoRunResult rfl rfl⟩

/-- C9: when the client reports no agent for the requested id,
get_agent_info prints the "Agent not found" error object and exits 1
instead of emitting a success object. -/
theorem agent_not_found_error (c : Client) (j : String → Except String Json)
    (d : Option (List String)) (env : EnvMap) (cfg : Config) (aid : String)
    (hcfg : get_config d env = Except.ok cfg)
    (hagent : c.get_agent ("user:" ++ cfg.user_wallet) aid = Except.ok none) :
    run_cli c j d env ["get_agent_info", aid] =
      { printed := [errObj ("Agent not found: " ++ aid)], exitCode := 1 } := by
  refine run_cli_handler_exit _ _ _ _ _ _ _ _ rfl (by simp [getAgentInfoTool]) ?_
  simp [getAgentInfoTool, argAt, List.get?, get_agent_info, hcfg, hagent,
    liftExc, exceptBindOk, cli_err]

theorem agent_not_found_error_witness :
    demoClient.get_agent "user:0xabc" "agent-1" = Except.ok none ∧
    run_cli demoClient demoLoads none demoEnv ["get_agent_info", "agent-1"] =
      { printed := [errObj "Agent not found: agent-1"], exitCode := 1 } :=
  ⟨rfl,
   agent_not_found_error demoClient demoLoads none demoEnv demoConfig
     "agent-1" rfl rfl⟩

/-- C10: for list_agents, list_runs, list_agent_prices and
list_users, a supplied limit or offset that int() rejects makes the
invocation print the ValueError error object and exit 1, identically
for every client and environment (the Platform Client is never
contacted). -/
theorem bad_numeric_argument_rejected (c : Client) (j : String → Except String Json)
    (d : Option (List String)) (env : EnvMap) (s t : String) (n : Int)
    (hbad : pyIntParse s = none) (hok : pyIntParse t = some n) :
    (run_cli c j d env ["list_agents", s] = badIntResult s ∧
     run_cli c j d env ["list_agents", t, s] = badIntResult s) ∧
    (run_cli c j d env ["list_runs", s] = badIntResult s ∧
     run_cli c j d env ["list_runs", t, s] = badIntResult s) ∧
    (run_cli c j d env ["list_agent_prices", s] = badIntResult s ∧
     run_cli c j d env ["list_agent_prices", t, s] = badIntResult s) ∧
    (run_cli c j d env ["list_users", s] = badIntResult s ∧
     run_cli c j d env ["list_users", t, s] = badIntResult s) := by
  have hbadInt : pyInt s = Except.error (PyExc.exc (intErrMsg s)) := by
    simp [pyInt, hbad]
  have hokInt : pyInt t = Except.ok n := by simp [pyInt, hok]
  refine ⟨⟨?_, ?_⟩, ⟨?_, ?_⟩, ⟨?_, ?_⟩, ⟨?_, ?_⟩⟩
  · exact run_cli_handler_exc _ _ _ _ _ _ _ _ rfl (by simp [listAgentsTool])
      (by simp [listAgentsTool, limitArg, offsetArg, List.get?, hbadInt,
        exceptBindError])
  · exact run_cli_handler_exc _ _ _ _ _ _ _ _ rfl (by simp [listAgentsTool])
      (by simp [listAgentsTool, limitArg, offsetArg, List.get?, hbadInt,
        hokInt, exceptBindOk, exceptBindError])
  · exact run_cli_handler_exc _ _ _ _ _ _ _ _ rfl (by simp [listRunsTool])
      (by simp [listRunsTool, limitArg, offsetArg, List.get?, hbadInt,
        exceptBindError])
  · exact run_cli_handler_exc _ _ _ _ _ _ _ _ rfl (by simp [listRunsTool])
      (by simp [listRunsTool, limitArg, offsetArg, List.get?, hbadInt,
        hokInt, exceptBindOk, exceptBindError])
  · exact run_cli_handler_exc _ _ _ _ _ _ _ _ rfl (by simp [listAgentPricesTool])
      (by simp [listAgentPricesTool, limitArg, offsetArg, List.get?, hbadInt,
        exceptBindError])
  · exact run_cli_handler_exc _ _ _ _ _ _ _ _ rfl (by simp [listAgentPricesTool])
      (by simp [listAgentPricesTool, limitArg, offsetArg, List.get?, hbadInt,
        hokInt, exceptBindOk, exceptBindError])
  · exact run_cli_handler_exc _ _ _ _ _ _ _ _ rfl (by simp [listUsersTool])
      (by simp [listUsersTool, limitArg, offsetArg, List.get?, hbadInt,
        exceptBindError])
  · exact run_cli_handler_exc _ _ _ _ _ _ _ _ rfl (by simp [listUsersTool])
      (by simp [listUsersTool, limitArg, offsetArg, List.get?, hbadInt,
        hokInt, exceptBindOk, exceptBindError])

theorem bad_numeric_argument_rejected_witness :
    pyIntParse "abc" = none ∧ pyIntParse "7" = some 7 ∧
    run_cli demoClient demoLoads none demoEnv ["list_users", "7", "abc"] =
      badIntResult "abc" :=
  ⟨rfl, rfl,
   (bad_numeric_argument_rejected demoClient demoLoads none demoEnv "abc" "7" 7
     rfl rfl).2.2.2.2⟩

end AIP
